import Mathlib

/-!
Verification of the quackvideo / reelpy media toolkit against its
natural-language specification.  Python floats are modelled as rationals
(`ℚ`), machine strings as `String`, fallible constructors as
`Except String _`.  `pyFloatStr` abstracts Python's `str()` on floats;
the claims proved here never depend on the exact digits it produces.
-/

/-- Python `str()` applied to a float, modelled on rationals. -/
def pyFloatStr (q : ℚ) : String := toString q

/-- Python `str()` applied to an int. -/
def pyIntStr (i : Int) : String := toString i

/- ### src/reelpy/core/ffmpeg.py — FFmpegCommand (plain dataclass, no validation) -/

structure RFFmpegCommand where
  input_path : String
  output_path : Option String := none
  fps : Option ℚ := none
  start_time : Option ℚ := none
  end_time : Option ℚ := none
  resolution : Option (Int × Int) := none
deriving DecidableEq

/-- Python `self.start_time or 0`: `None` and `0.0` are both falsy. -/
def pyOrZero : Option ℚ → ℚ
  | none => 0
  | some s => if s = 0 then 0 else s

/-- The `-ss` fragment of `build_command` (lines 60-61). -/
def RFFmpegCommand.ssArgs (c : RFFmpegCommand) : List String :=
  match c.start_time with
  | some s => ["-ss", pyFloatStr s]
  | none => []

/-- The `-t` fragment of `build_command` (lines 63-66): emitted only when the
computed duration is positive, otherwise silently omitted. -/
def RFFmpegCommand.durationArgs (c : RFFmpegCommand) : List String :=
  match c.end_time with
  | some e =>
      if 0 < e - pyOrZero c.start_time then ["-t", pyFloatStr (e - pyOrZero c.start_time)]
      else []
  | none => []

/-- The filter list of `build_command` (lines 68-72); `self.fps` is a Python
truthiness test, so `0.0` behaves like `None`. -/
def RFFmpegCommand.filters (c : RFFmpegCommand) : List String :=
  (match c.fps with
    | some f => if f = 0 then none else some ("fps=" ++ pyFloatStr f)
    | none => none).toList ++
  (match c.resolution with
    | some (w, h) => [("scale=" ++ pyIntStr w ++ ":" ++ pyIntStr h)]
    | none => [])

/-- The `-vf` fragment of `build_command` (lines 73-74). -/
def RFFmpegCommand.vfArgs (c : RFFmpegCommand) : List String :=
  if c.filters = [] then [] else ["-vf", String.intercalate "," c.filters]

/-- The trailing output-path fragment of `build_command` (lines 76-77). -/
def RFFmpegCommand.outputArgs (c : RFFmpegCommand) : List String :=
  match c.output_path with
  | some p => [p]
  | none => []

/-- `FFmpegCommand.build_command` from src/reelpy/core/ffmpeg.py lines 56-79. -/
def RFFmpegCommand.build_command (c : RFFmpegCommand) : List String :=
  ["ffmpeg", "-i", c.input_path] ++ c.ssArgs ++ c.durationArgs ++ c.vfArgs ++ c.outputArgs

/- ### src/quackvideo/core/ffmpeg.py — FFmpegCommand (pydantic model) -/

structure QFFmpegCommand where
  input_path : String
  output_path : Option String := none
  fps : Option ℚ := none
  start_time : Option ℚ := none
  end_time : Option ℚ := none
  resolution : Option (Int × Int) := none
deriving DecidableEq

/-- Arguments offered to the pydantic constructor, before validation. -/
structure QFFmpegCommandArgs where
  input_path : String
  output_path : Option String := none
  fps : Option ℚ := none
  start_time : Option ℚ := none
  end_time : Option ℚ := none
  resolution : Option (Int × Int) := none

/-- `validate_fps` (quackvideo ffmpeg.py lines 38-42). -/
def qValidateFps : Option ℚ → Except String (Option ℚ)
  | some v => if v ≤ 0 then .error "FPS must be positive" else .ok (some v)
  | none => .ok none

/-- `validate_time` (quackvideo ffmpeg.py lines 44-48): applied to both
`start_time` and `end_time`, it checks non-negativity only. -/
def qValidateTime : Option ℚ → Except String (Option ℚ)
  | some v => if v < 0 then .error "Time values must be non-negative" else .ok (some v)
  | none => .ok none

/-- `validate_resolution` (quackvideo ffmpeg.py lines 50-56). -/
def qValidateResolution : Option (Int × Int) → Except String (Option (Int × Int))
  | some (w, h) =>
      if w ≤ 0 ∨ h ≤ 0 then .error "Resolution dimensions must be positive"
      else .ok (some (w, h))
  | none => .ok none

/-- Pydantic construction of `FFmpegCommand` (quackvideo): run each field
validator in declaration order; any failure aborts construction. -/
def QFFmpegCommand.construct (a : QFFmpegCommandArgs) : Except String QFFmpegCommand := do
  let fps ← qValidateFps a.fps
  let st ← qValidateTime a.start_time
  let et ← qValidateTime a.end_time
  let res ← qValidateResolution a.resolution
  .ok { input_path := a.input_path, output_path := a.output_path,
        fps := fps, start_time := st, end_time := et, resolution := res }

/-- A node of the ffmpeg-python filter chain built by `build_stream`. -/
inductive QFilter
  | setpts (spec : String)
  | fpsFilter (rate : ℚ)
  | scale (w h : Int)
  | trim (duration : ℚ)
deriving DecidableEq

/-- The leading `setpts` filter of `build_stream` (lines 62-63). -/
def QFFmpegCommand.startFilters (c : QFFmpegCommand) : List QFilter :=
  match c.start_time with
  | some s => [.setpts ("PTS-" ++ pyFloatStr s ++ "/TB")]
  | none => []

/-- The trailing `setpts`/`trim` filters of `build_stream` (lines 71-75):
emitted only when both times are set and the computed duration is positive. -/
def QFFmpegCommand.trimFilters (c : QFFmpegCommand) : List QFilter :=
  match c.end_time, c.start_time with
  | some e, some s =>
      if 0 < e - s then [.setpts "PTS-STARTPTS", .trim (e - s)] else []
  | _, _ => []

/-- `FFmpegCommand.build_stream` from src/quackvideo/core/ffmpeg.py lines
58-77, as the ordered list of filters applied to the input stream. -/
def QFFmpegCommand.build_stream (c : QFFmpegCommand) : List QFilter :=
  c.startFilters ++
  (match c.fps with | some f => [QFilter.fpsFilter f] | none => []) ++
  (match c.resolution with | some (w, h) => [QFilter.scale w h] | none => []) ++
  c.trimFilters

/- ### src/quackvideo/video/reader.py — VideoReaderConfig (pydantic model) -/

structure VideoReaderConfig where
  fps : Option ℚ := none
  start_time : Option ℚ := none
  end_time : Option ℚ := none
  resolution : Option (Int × Int) := none
  skip_validation : Bool := false
  force_fps : Bool := false
deriving DecidableEq

/-- Arguments offered to the `VideoReaderConfig` constructor. -/
structure VideoReaderConfigArgs where
  fps : Option ℚ := none
  start_time : Option ℚ := none
  end_time : Option ℚ := none
  resolution : Option (Int × Int) := none
  skip_validation : Bool := false
  force_fps : Bool := false

/-- `validate_start_time` (reader.py lines 46-50).  Pydantic runs field
validators in declaration order and `skip_validation` is declared after
`start_time`, so `info.data.get("skip_validation", False)` always yields the
default `False` here; the clamp `max(0.0, v)` therefore always applies. -/
def vrcValidateStartTime : Option ℚ → Option ℚ
  | none => none
  | some s => some (max 0 s)

/-- `validate_end_time` (reader.py lines 52-59).  As above, the
`skip_validation` lookup yields `False`; `info.data.get("start_time", 0.0) or
0.0` maps a missing or `0.0` start time to `0.0` (Python truthiness). -/
def vrcValidateEndTime (start : Option ℚ) : Option ℚ → Except String (Option ℚ)
  | none => .ok none
  | some e =>
      if e ≤ pyOrZero start then .error "end_time must be greater than start_time"
      else .ok (some e)

/-- Pydantic construction of `VideoReaderConfig` (reader.py lines 31-65),
running the validators in field declaration order. -/
def VideoReaderConfig.construct (a : VideoReaderConfigArgs) : Except String VideoReaderConfig := do
  let fps ← qValidateFps a.fps
  let st := vrcValidateStartTime a.start_time
  let et ← vrcValidateEndTime st a.end_time
  let res ← qValidateResolution a.resolution
  .ok { fps := fps, start_time := st, end_time := et, resolution := res,
        skip_validation := a.skip_validation, force_fps := a.force_fps }

/- ### Frame-rate ratio parsing (probe adapter) -/

/-- Result of `fps_num, fps_den = map(int, s.split("/"))`: either the two
parsed integers, or the ValueError Python raises when a part is not an int
or the split does not yield exactly two parts. -/
inductive FpsParse
  | okRatio (num den : Int)
  | valueError
deriving DecidableEq

/-- Python `s.split(sep)` for a one-character separator, on the character
list of the string. -/
def splitOnChar (sep : Char) : List Char → List (List Char)
  | [] => [[]]
  | c :: rest =>
      match splitOnChar sep rest with
      | g :: gs => if c = sep then [] :: g :: gs else (c :: g) :: gs
      | [] => [[c]]

/-- Digit accumulator for `pyInt`; `none` until at least one digit is seen,
`none` again on the first non-digit character. -/
def parseDigits : List Char → Option Nat → Option Nat
  | [], acc => acc
  | c :: rest, acc =>
      if c.isDigit then parseDigits rest (some (acc.getD 0 * 10 + (c.toNat - 48)))
      else none

/-- Python `int()` on a canonical integer literal: an optional sign followed
by at least one digit; anything else raises ValueError (`none`). -/
def pyInt : List Char → Option Int
  | '-' :: rest => (parseDigits rest none).map (fun n => -(n : Int))
  | '+' :: rest => (parseDigits rest none).map (fun n => (n : Int))
  | cs => (parseDigits cs none).map (fun n => (n : Int))

/-- The ratio-parsing step shared by `FFmpegWrapper.get_video_info`
(quackvideo ffmpeg.py line 111) and `VideoReader._load_metadata`
(reader.py line 158): `fps_num, fps_den = map(int, s.split("/"))`, where the
two-element unpacking raises ValueError when the split does not yield
exactly two parts. -/
def parseRFrameRate (s : String) : FpsParse :=
  match (splitOnChar '/' s.toList).map pyInt with
  | [some n, some d] => .okRatio n d
  | _ => .valueError

/-- Outcome of the fps-computing slice of `FFmpegWrapper.get_video_info`
(quackvideo ffmpeg.py lines 97-123). -/
inductive ProbeFps
  | okFps (fps : ℚ)
  | ffmpegError (msg : String)
  | uncaught (exc : String)
deriving DecidableEq

/-- The fps computation of `get_video_info`: a missing video stream raises
the classified `FFmpegError`; the enclosing `try` catches only
`ffmpeg.Error`, so a `ValueError` from `int()` or a `ZeroDivisionError` from
`fps_num / fps_den` escapes unclassified. -/
def getVideoInfoFps (videoStream : Option String) : ProbeFps :=
  match videoStream with
  | none => .ffmpegError "No video stream found"
  | some rate =>
      match parseRFrameRate rate with
      | .valueError => .uncaught "ValueError"
      | .okRatio n d =>
          if d = 0 then .uncaught "ZeroDivisionError" else .okFps ((n : ℚ) / (d : ℚ))

/-- Outcome of the fps-computing slice of `VideoReader._load_metadata`
(reader.py lines 131-173). -/
inductive MetaFps
  | okFps (fps : ℚ)
  | runtimeError (msg : String)
  | uncaught (exc : String)
deriving DecidableEq

/-- The fps computation of `_load_metadata`: its `except` clause (line 172)
catches `KeyError, ValueError, IndexError` and re-raises a classified
`RuntimeError`, but `ZeroDivisionError` is not in that tuple and escapes. -/
def loadMetadataFps (rate : String) : MetaFps :=
  match parseRFrameRate rate with
  | .valueError => .runtimeError "Invalid video metadata format"
  | .okRatio n d =>
      if d = 0 then .uncaught "ZeroDivisionError" else .okFps ((n : ℚ) / (d : ℚ))

/- ### src/quackvideo/core/operations/models.py -/

/-- `FrameExtractionConfig` (models.py lines 27-38), with the inherited
`FFmpegBaseConfig` fields (lines 19-24). -/
structure FrameExtractionConfig where
  timeout : Int := 10
  retries : Int := 5
  retry_delay : ℚ := 1
  fps : String := "1/5"
  format : String := "png"
  quality : Int := 100
deriving DecidableEq

/-- `validate_quality` (models.py lines 34-38), the only validator declared
on `FrameExtractionConfig`. -/
def validateQuality (v : Int) : Except String Int :=
  if ¬(1 ≤ v ∧ v ≤ 100) then .error "Quality must be between 1 and 100" else .ok v

/-- Pydantic construction of `FrameExtractionConfig`: only `quality` is
validated; the `fps` string is stored as given, unchecked. -/
def FrameExtractionConfig.construct (fps : String) (format : String) (quality : Int) :
    Except String FrameExtractionConfig := do
  let q ← validateQuality quality
  .ok { fps := fps, format := format, quality := q }

/-- `ProcessingMetadata` (models.py lines 79-97); frame counters are Python
ints, modelled as `Int`. -/
structure ProcessingMetadata where
  total_frames : Option Int := none
  completed_frames : Int := 0
  status : String := "in_progress"
  last_processed : Option String := none
deriving DecidableEq

/-- `validate_progress` (models.py lines 89-97): a model-level validator run
after field assignment. -/
def ProcessingMetadata.validate_progress (m : ProcessingMetadata) :
    Except String ProcessingMetadata :=
  match m.total_frames with
  | some t =>
      if m.completed_frames > t then
        .error "Completed frames cannot exceed total frames"
      else .ok m
  | none => .ok m

/-- Pydantic construction of `ProcessingMetadata`: assign the fields, then
run the model validator. -/
def ProcessingMetadata.construct (total : Option Int) (completed : Int) (status : String) :
    Except String ProcessingMetadata :=
  ProcessingMetadata.validate_progress
    { total_frames := total, completed_frames := completed, status := status }

/- ### Subprocess teardown in FFmpegWrapper.extract_frames (both variants) -/

/-- Observable state of the spawned child process and its pipes during one
`extract_frames` invocation; the counters record how many times each
teardown action was executed. -/
structure ProcState where
  stdoutCloses : Nat := 0
  stderrCloses : Nat := 0
  terminates : Nat := 0
  kills : Nat := 0
  alive : Bool := true
deriving DecidableEq

/-- `process.stdout.close()`. -/
def closeStdout (s : ProcState) : ProcState := { s with stdoutCloses := s.stdoutCloses + 1 }

/-- `process.stderr.close()`. -/
def closeStderr (s : ProcState) : ProcState := { s with stderrCloses := s.stderrCloses + 1 }

/-- `process.terminate()`; `tookEffect` records whether the child honours
SIGTERM before it is next observed. -/
def terminateProc (tookEffect : Bool) (s : ProcState) : ProcState :=
  { s with terminates := s.terminates + 1, alive := s.alive && !tookEffect }

/-- `process.kill()`: forceful, always effective. -/
def killProc (s : ProcState) : ProcState :=
  { s with kills := s.kills + 1, alive := false }

/-- The `terminate` / `wait(timeout=1)` / `kill` escalation used by both
`finally` blocks (quackvideo ffmpeg.py lines 202-207, reelpy ffmpeg.py lines
201-206): terminate, give a one-second grace period, kill if still alive. -/
def escalate (diesOnTerm : Bool) (s : ProcState) : ProcState :=
  let s := terminateProc diesOnTerm s
  if s.alive then killProc s else s

/-- The shared `finally` teardown block: close both pipes, then if
`poll()` reports the child still running, run the terminate/kill
escalation. -/
def finallyTeardown (diesOnTerm : Bool) (s : ProcState) : ProcState :=
  let s := closeStderr (closeStdout s)
  if s.alive then escalate diesOnTerm s else s

/-- How one quackvideo `extract_frames` invocation exits, for an invocation
whose `run_async` succeeded (before the spawn there is no child to
reclaim).  `diesOnTerm` is whether the child dies within the grace period;
`termTookEffect` is whether the mid-stream `terminate()` has taken effect
by the time the `finally` block polls. -/
inductive QExit
  | normal (exitCode : Int)
  | waitTimeout (diesOnTerm : Bool)
  | midStreamError (termTookEffect diesOnTerm : Bool)
  | abandoned (diesOnTerm : Bool)

/-- What an `extract_frames` invocation does on leaving: return normally,
raise, or be closed early by the caller (GeneratorExit). -/
inductive ExitKind
  | returned
  | raisedError
  | closedEarly
deriving DecidableEq

/-- Control flow of quackvideo `FFmpegWrapper.extract_frames` (ffmpeg.py
lines 163-209) after a successful spawn, per exit path:
normal exhaustion runs `wait` and the `finally` teardown; a `wait` timeout
raises through the outer `except` and then the `finally`; an exception
mid-stream first runs the inner `except` cleanup (close both pipes,
terminate, raise — lines 181-184) and then the `finally` runs a second
time; abandoning the iterator raises GeneratorExit at the yield, which no
`except Exception` clause catches, straight into the `finally`. -/
def quackExtractRun : QExit → ProcState × ExitKind
  | .normal exitCode =>
      let s : ProcState := { alive := false }
      (finallyTeardown true s, if exitCode = 0 then .returned else .raisedError)
  | .waitTimeout diesOnTerm =>
      (finallyTeardown diesOnTerm {}, .raisedError)
  | .midStreamError termTookEffect diesOnTerm =>
      let s := terminateProc termTookEffect (closeStderr (closeStdout {}))
      (finallyTeardown diesOnTerm s, .raisedError)
  | .abandoned diesOnTerm =>
      (finallyTeardown diesOnTerm {}, .closedEarly)

/-- How one reelpy `extract_frames` invocation exits, for an invocation
whose `Popen` succeeded.  `drainClosedStderr` is whether the stderr-drain
thread has already reached EOF and closed `process.stderr` in its own
`finally` (reelpy ffmpeg.py lines 36-37) before the main teardown runs. -/
inductive RExit
  | normal (exitCode : Int) (drainClosedStderr : Bool)
  | readTimeout (drainClosedStderr diesOnTerm : Bool)
  | midStreamError (drainClosedStderr diesOnTerm : Bool)
  | waitTimeout (drainClosedStderr diesOnTerm : Bool)
  | abandoned (drainClosedStderr diesOnTerm : Bool)

/-- Control flow of reelpy `FFmpegWrapper.extract_frames` (ffmpeg.py lines
152-212) after a successful spawn: every exit path falls through to the
single `finally` teardown (lines 196-212); the stderr pipe may additionally
have been closed by the drain thread. -/
def reelExtractRun : RExit → ProcState × ExitKind
  | .normal exitCode drain =>
      let s : ProcState := { stderrCloses := if drain then 1 else 0, alive := false }
      (finallyTeardown true s, if exitCode = 0 then .returned else .raisedError)
  | .readTimeout drain diesOnTerm =>
      (finallyTeardown diesOnTerm { stderrCloses := if drain then 1 else 0 }, .raisedError)
  | .midStreamError drain diesOnTerm =>
      (finallyTeardown diesOnTerm { stderrCloses := if drain then 1 else 0 }, .raisedError)
  | .waitTimeout drain diesOnTerm =>
      (finallyTeardown diesOnTerm { stderrCloses := if drain then 1 else 0 }, .raisedError)
  | .abandoned drain diesOnTerm =>
      (finallyTeardown diesOnTerm { stderrCloses := if drain then 1 else 0 }, .closedEarly)

/-- Both pipes closed at least once and the child no longer running. -/
def reclaimed (s : ProcState) : Prop :=
  1 ≤ s.stdoutCloses ∧ 1 ≤ s.stderrCloses ∧ s.alive = false

/- ### src/quackvideo/core/operations/base.py — execute_with_retry -/

/-- Outcome of one attempt of the retried FFmpeg operation: `ffmpeg.run`
succeeds, raises `ffmpeg.Error` (with optional stderr bytes), or raises
some other exception. -/
inductive Attempt
  | ok
  | engineError (stderr : Option String)
  | unexpected (msg : String)

/-- The error `execute_with_retry` eventually raises. -/
inductive LastError
  | engine (stderr : Option String)
  | unexpected (msg : String)
deriving DecidableEq

/-- How `execute_with_retry` leaves: return the processed result, or raise
`last_error` (`none` means the generic no-attempt error of line 207). -/
inductive RetryOutcome
  | returned
  | raised (e : Option LastError)
deriving DecidableEq

/-- Observable trace of one `execute_with_retry` call. -/
structure RetryTrace where
  attemptsMade : Nat
  sleeps : List ℚ
  status : String
  outcome : RetryOutcome
deriving DecidableEq

/-- The `for attempt in range(retries)` loop of `execute_with_retry`
(base.py lines 161-203): `made` is the index of the next attempt,
`remaining` the attempts left, `sleeps` the delays slept so far (most
recent first).  On `ffmpeg.Error` the loop sleeps only when
`attempt < retries - 1` (line 196), i.e. when further attempts remain; any
other exception breaks out of the loop at once. -/
def retryLoop (att : Nat → Attempt) (delay : ℚ) :
    (remaining made : Nat) → List ℚ → Option LastError → RetryTrace
  | 0, made, sleeps, last => ⟨made, sleeps.reverse, "failed", .raised last⟩
  | remaining + 1, made, sleeps, _ =>
      match att made with
      | .ok => ⟨made + 1, sleeps.reverse, "completed", .returned⟩
      | .engineError stderr =>
          retryLoop att delay remaining (made + 1)
            (if 0 < remaining then delay :: sleeps else sleeps)
            (some (.engine stderr))
      | .unexpected msg => ⟨made + 1, sleeps.reverse, "failed", .raised (some (.unexpected msg))⟩

/-- `FFmpegOperation.execute_with_retry` (base.py lines 128-209), abstracted
over the outcome of each attempt: after the loop falls through, metadata is
written with status "failed" and `last_error` is raised; a success writes
"completed" and returns. -/
def execute_with_retry (retries : Nat) (retry_delay : ℚ) (att : Nat → Attempt) : RetryTrace :=
  retryLoop att retry_delay retries 0 [] none

/- ### src/quackvideo/video/writer.py — VideoWriter -/

/-- A video frame as the writer observes it: `frame.shape[:2]`. -/
structure Frame where
  height : Nat
  width : Nat
deriving DecidableEq

/-- `WriteResult` (writer.py lines 70-75). -/
structure WriteResult where
  output_path : String
  frame_count : Nat
  duration : ℚ
deriving DecidableEq

/-- Exceptions `write_frames` / `write_frames_from_stream` raise. -/
inductive WriteError
  | valueError (msg : String)
  | runtimeError (msg : String)
deriving DecidableEq

/-- Observable effects of one write call: whether the FFmpeg subprocess was
spawned, how many frames were piped to its stdin, and the returned value or
raised exception. -/
structure WriteRun where
  spawned : Bool
  framesWritten : Nat
  result : Except WriteError WriteResult

/-- The frame-writing loop: each frame whose `shape[:2]` matches the first
frame's `(height, width)` is written to stdin; the first mismatch raises
`ValueError` after `n` frames were written (`.inr n`); `.inl n` means all
frames were written. -/
def writeAll (h w : Nat) : List Frame → Nat → Sum Nat Nat
  | [], n => .inl n
  | f :: rest, n =>
      if f.height = h ∧ f.width = w then writeAll h w rest (n + 1) else .inr n

/-- `VideoWriter.write_frames` (writer.py lines 97-180), abstracted over the
engine's exit code and stderr text.  An empty sequence raises `ValueError`
before the subprocess is started (line 111-112); on success the result
carries `len(frames)` and `len(frames) / self.config.fps`. -/
def VideoWriter.write_frames (fps : ℚ) (output_path : String) (frames : List Frame)
    (exitCode : Int) (stderrText : String) : WriteRun :=
  match frames with
  | [] => { spawned := false, framesWritten := 0,
            result := .error (.valueError "No frames to write") }
  | f0 :: _ =>
      match writeAll f0.height f0.width frames 0 with
      | .inr written =>
          { spawned := true, framesWritten := written,
            result := .error (.valueError "Inconsistent frame dimensions") }
      | .inl n =>
          if exitCode ≠ 0 then
            { spawned := true, framesWritten := n,
              result := .error (.runtimeError ("FFmpeg encoding failed: " ++ stderrText)) }
          else
            { spawned := true, framesWritten := n,
              result := .ok { output_path := output_path,
                              frame_count := frames.length,
                              duration := (frames.length : ℚ) / fps } }

/-- `VideoWriter.write_frames_from_stream` (writer.py lines 182-272), with
the frame iterator modelled as the list of frames it yields.  An exhausted
iterator raises `ValueError` before the subprocess is started (lines
199-202); the first frame is written without a dimension check (line 232)
and `frame_count` is accumulated incrementally. -/
def VideoWriter.write_frames_from_stream (fps : ℚ) (output_path : String)
    (frames : List Frame) (exitCode : Int) (stderrText : String) : WriteRun :=
  match frames with
  | [] => { spawned := false, framesWritten := 0,
            result := .error (.valueError "No frames received from iterator") }
  | f0 :: rest =>
      match writeAll f0.height f0.width rest 1 with
      | .inr written =>
          { spawned := true, framesWritten := written,
            result := .error (.valueError "Inconsistent frame dimensions") }
      | .inl n =>
          if exitCode ≠ 0 then
            { spawned := true, framesWritten := n,
              result := .error (.runtimeError ("FFmpeg encoding failed: " ++ stderrText)) }
          else
            { spawned := true, framesWritten := n,
              result := .ok { output_path := output_path,
                              frame_count := n,
                              duration := (n : ℚ) / fps } }

/- ### Theorems -/

/-- Claim C2: constructing a media request (FFmpegCommand or
VideoReaderConfig) with both times set and end_time ≤ start_time fails at
construction with the message "end_time must exceed start_time", so no
argument vector is built from such a request.  Refuted: the quackvideo
`FFmpegCommand` validators only check non-negativity, so construction with
`start_time=2.0, end_time=1.0` succeeds; only `VideoReaderConfig` rejects,
and its message is "end_time must be greater than start_time". -/
theorem c2_counterexample :
    (QFFmpegCommand.construct
      { input_path := "input.mp4", start_time := some 2, end_time := some 1 }).isOk = true ∧
    VideoReaderConfig.construct { start_time := some 2, end_time := some 1 } =
      .error "end_time must be greater than start_time" := by
  exact ⟨rfl, rfl⟩

/-- Claim C2 (amended): for end_time ≤ start_time (both non-negative),
`VideoReaderConfig` rejects at construction with ValueError "end_time must
be greater than start_time", while the quackvideo `FFmpegCommand` accepts
the same times (only non-negativity is enforced) and `build_stream` still
produces a filter chain from the accepted request. -/
theorem c2_end_time_validation (p : String) (s e : ℚ)
    (hs : 0 ≤ s) (he : 0 ≤ e) (hle : e ≤ s) :
    VideoReaderConfig.construct { start_time := some s, end_time := some e } =
      .error "end_time must be greater than start_time" ∧
    (QFFmpegCommand.construct
      { input_path := p, start_time := some s, end_time := some e }).isOk = true ∧
    QFFmpegCommand.build_stream
      { input_path := p, start_time := some s, end_time := some e } =
      [QFilter.setpts ("PTS-" ++ pyFloatStr s ++ "/TB")] := by
  refine ⟨?_, ?_, ?_⟩
  · by_cases h0 : s = 0
    · subst h0
      simp only [VideoReaderConfig.construct, qValidateFps, vrcValidateStartTime,
        vrcValidateEndTime, pyOrZero, Except.bind]
      simp [show e ≤ (0:ℚ) from hle]
      rfl
    · simp only [VideoReaderConfig.construct, qValidateFps, vrcValidateStartTime,
        vrcValidateEndTime, pyOrZero, Except.bind]
      simp [max_eq_right hs, h0, hle]
      rfl
  · simp [QFFmpegCommand.construct, qValidateFps, qValidateTime, qValidateResolution,
      not_lt.mpr hs, not_lt.mpr he, Except.bind]
    rfl
  · simp [QFFmpegCommand.build_stream, QFFmpegCommand.startFilters,
      QFFmpegCommand.trimFilters, not_lt.mpr (sub_nonpos.mpr hle)]

/-- Claim C2 witness: the amended theorem applied at start_time 2,
end_time 1. -/
theorem c2_end_time_validation_witness :
    (0:ℚ) ≤ 2 ∧ (0:ℚ) ≤ 1 ∧ (1:ℚ) ≤ 2 ∧
    (VideoReaderConfig.construct { start_time := some 2, end_time := some 1 } =
      .error "end_time must be greater than start_time" ∧
    (QFFmpegCommand.construct
      { input_path := "input.mp4", start_time := some 2, end_time := some 1 }).isOk = true ∧
    QFFmpegCommand.build_stream
      { input_path := "input.mp4", start_time := some 2, end_time := some 1 } =
      [QFilter.setpts ("PTS-" ++ pyFloatStr 2 ++ "/TB")]) :=
  ⟨by norm_num, by norm_num, by norm_num,
   c2_end_time_validation "input.mp4" 2 1 (by norm_num) (by norm_num) (by norm_num)⟩

/-- Claim C3: with both times set, a non-positive computed duration makes
the builder reject the request with an error rather than silently omit the
duration directive.  Refuted: at `start_time=2, end_time=1` (duration -1)
the reelpy `build_command` returns a complete argument vector with no `-t`
directive and no error, and the quackvideo `build_stream` likewise returns
a filter chain with no `trim` filter. -/
theorem c3_counterexample :
    RFFmpegCommand.build_command
      { input_path := "input.mp4", start_time := some 2, end_time := some 1 } =
      ["ffmpeg", "-i", "input.mp4", "-ss", pyFloatStr 2] ∧
    QFFmpegCommand.build_stream
      { input_path := "input.mp4", start_time := some 2, end_time := some 1 } =
      [QFilter.setpts ("PTS-" ++ pyFloatStr 2 ++ "/TB")] := by
  constructor
  · simp [RFFmpegCommand.build_command, RFFmpegCommand.ssArgs, RFFmpegCommand.durationArgs,
      RFFmpegCommand.vfArgs, RFFmpegCommand.filters, RFFmpegCommand.outputArgs, pyOrZero,
      show ¬(0:ℚ) < 1 - 2 by norm_num, show (2:ℚ) ≠ 0 by norm_num]
  · simp [QFFmpegCommand.build_stream, QFFmpegCommand.startFilters, QFFmpegCommand.trimFilters,
      show ¬(0:ℚ) < 1 - 2 by norm_num]

/-- Claim C3 (amended): with both times set the builders compute
duration = end_time - start_time, emit the duration directive exactly when
the duration is positive, and otherwise silently omit it and continue
building the rest of the command. -/
theorem c3_duration_directive (c : RFFmpegCommand) (q : QFFmpegCommand) (s e : ℚ)
    (hcs : c.start_time = some s) (hce : c.end_time = some e)
    (hqs : q.start_time = some s) (hqe : q.end_time = some e) :
    c.build_command = ["ffmpeg", "-i", c.input_path] ++ c.ssArgs ++
      (if 0 < e - s then ["-t", pyFloatStr (e - s)] else []) ++ c.vfArgs ++ c.outputArgs ∧
    q.build_stream = q.startFilters ++
      (match q.fps with | some f => [QFilter.fpsFilter f] | none => []) ++
      (match q.resolution with | some (w, h) => [QFilter.scale w h] | none => []) ++
      (if 0 < e - s then [QFilter.setpts "PTS-STARTPTS", QFilter.trim (e - s)] else []) := by
  have hdur : c.durationArgs = (if 0 < e - s then ["-t", pyFloatStr (e - s)] else []) := by
    by_cases h0 : s = 0
    · subst h0
      simp [RFFmpegCommand.durationArgs, hcs, hce, pyOrZero]
    · simp [RFFmpegCommand.durationArgs, hcs, hce, pyOrZero, h0]
  constructor
  · rw [RFFmpegCommand.build_command, hdur]
  · rw [QFFmpegCommand.build_stream]
    have htrim : q.trimFilters =
        (if 0 < e - s then [QFilter.setpts "PTS-STARTPTS", QFilter.trim (e - s)] else []) := by
      simp [QFFmpegCommand.trimFilters, hqs, hqe]
    rw [htrim]

/-- Claim C3 witness: the amended theorem applied at start_time 1,
end_time 4 (positive duration 3, directive emitted). -/
theorem c3_duration_directive_witness :
    ({ input_path := "input.mp4", start_time := some 1, end_time := some 4 }
        : RFFmpegCommand).start_time = some 1 ∧
    RFFmpegCommand.build_command
      { input_path := "input.mp4", start_time := some 1, end_time := some 4 } =
      ["ffmpeg", "-i", "input.mp4"] ++
        RFFmpegCommand.ssArgs
          { input_path := "input.mp4", start_time := some 1, end_time := some 4 } ++
        (if 0 < (4:ℚ) - 1 then ["-t", pyFloatStr ((4:ℚ) - 1)] else []) ++
        RFFmpegCommand.vfArgs
          { input_path := "input.mp4", start_time := some 1, end_time := some 4 } ++
        RFFmpegCommand.outputArgs
          { input_path := "input.mp4", start_time := some 1, end_time := some 4 } :=
  ⟨rfl,
   (c3_duration_directive
      { input_path := "input.mp4", start_time := some 1, end_time := some 4 }
      { input_path := "input.mp4", start_time := some 1, end_time := some 4 }
      1 4 rfl rfl rfl rfl).1⟩

/-- Claim C4: a frame-rate string "num/den" is parsed as exact rational
division, and den = 0 yields a classified ProbeError rather than an
unhandled arithmetic error.  Refuted on the second half: for "1/0" both
`get_video_info` and `_load_metadata` raise ZeroDivisionError, which their
`except` clauses (`ffmpeg.Error` only, resp. `KeyError, ValueError,
IndexError`) do not catch — the error escapes unclassified. -/
theorem c4_counterexample :
    getVideoInfoFps (some "1/0") = .uncaught "ZeroDivisionError" ∧
    loadMetadataFps "1/0" = .uncaught "ZeroDivisionError" := by
  exact ⟨by decide, by decide⟩

/-- Claim C4 (amended): a frame-rate string that parses as "num/den" with
den ≠ 0 yields exactly the rational num/den in both probe paths; den = 0
raises an unhandled ZeroDivisionError in both (never the classified
FFmpegError / RuntimeError); a string that does not parse as two ints
raises ValueError, which `get_video_info` leaves uncaught and
`_load_metadata` converts to its classified RuntimeError. -/
theorem c4_frame_rate_parsing (s : String) (n d : Int)
    (h : parseRFrameRate s = .okRatio n d) :
    (d ≠ 0 → getVideoInfoFps (some s) = .okFps ((n : ℚ) / (d : ℚ)) ∧
             loadMetadataFps s = .okFps ((n : ℚ) / (d : ℚ))) ∧
    (d = 0 → getVideoInfoFps (some s) = .uncaught "ZeroDivisionError" ∧
             loadMetadataFps s = .uncaught "ZeroDivisionError") ∧
    (∀ t, parseRFrameRate t = .valueError →
      getVideoInfoFps (some t) = .uncaught "ValueError" ∧
      loadMetadataFps t = .runtimeError "Invalid video metadata format") := by
  refine ⟨?_, ?_, ?_⟩
  · intro hd
    simp [getVideoInfoFps, loadMetadataFps, h, hd]
  · intro hd
    simp [getVideoInfoFps, loadMetadataFps, h, hd]
  · intro t ht
    simp [getVideoInfoFps, loadMetadataFps, ht]

/-- Claim C4 witness: the amended theorem applied at "24/1" (den 1 ≠ 0,
parsed as the rational 24/1) and, for the ValueError branch, at the
non-numeric string "invalid". -/
theorem c4_frame_rate_parsing_witness :
    parseRFrameRate "24/1" = .okRatio 24 1 ∧ (24:Int) ≠ 0 ∧
    getVideoInfoFps (some "24/1") = .okFps ((24 : ℚ) / (1 : ℚ)) ∧
    loadMetadataFps "invalid" = .runtimeError "Invalid video metadata format" :=
  ⟨by decide, by decide,
   ((c4_frame_rate_parsing "24/1" 24 1 (by decide)).1 (by decide)).1,
   ((c4_frame_rate_parsing "24/1" 24 1 (by decide)).2.2 "invalid" (by decide)).2⟩

/-- Claim C5: constructing a frame-extraction configuration with fps "0/1",
"-1/1", "1/0" or a non-numeric string fails at construction.  The code has
no fps validator at all — `FrameExtractionConfig` accepts all four strings
(its only validator checks `quality`), contradicting the repository's own
tests (tests/core/test_models.py, test_invalid_fps_values, which expects a
ValidationError for exactly these inputs). -/
theorem c5_fps_unvalidated :
    (FrameExtractionConfig.construct "0/1" "png" 100).isOk = true ∧
    (FrameExtractionConfig.construct "-1/1" "png" 100).isOk = true ∧
    (FrameExtractionConfig.construct "1/0" "png" 100).isOk = true ∧
    (FrameExtractionConfig.construct "invalid" "png" 100).isOk = true ∧
    FrameExtractionConfig.construct "0/1" "png" 100 =
      .ok { fps := "0/1", format := "png", quality := 100 } := by
  exact ⟨rfl, rfl, rfl, rfl, rfl⟩

/-- Joining a two-element filter list with "," (the `",".join(filters)` of
build_command line 74). -/
theorem intercalate_pair (a b : String) : String.intercalate "," [a, b] = a ++ "," ++ b := by
  simp [String.intercalate, String.intercalate.go]

/-- Claim C6: whenever both a target frame rate and a target resolution are
set, the built command has exactly one filter-chain argument combining both
filters, rate filter first: reelpy `build_command` emits the single
`-vf` argument `"fps=f,scale=w:h"`, and quackvideo `build_stream` places
the `fps` filter node immediately before the `scale` node in its single
filter chain. -/
theorem c6_filter_chain :
    (∀ (c : RFFmpegCommand) (f : ℚ) (w h : Int), c.fps = some f → 0 < f →
      c.resolution = some (w, h) →
      c.build_command = ["ffmpeg", "-i", c.input_path] ++ c.ssArgs ++ c.durationArgs ++
        ["-vf", "fps=" ++ pyFloatStr f ++ "," ++ ("scale=" ++ pyIntStr w ++ ":" ++ pyIntStr h)] ++
        c.outputArgs) ∧
    (∀ (q : QFFmpegCommand) (f : ℚ) (w h : Int), q.fps = some f →
      q.resolution = some (w, h) →
      q.build_stream = q.startFilters ++ [QFilter.fpsFilter f, QFilter.scale w h] ++
        q.trimFilters) := by
  constructor
  · intro c f w h hf hpos hres
    have hfil : c.filters = ["fps=" ++ pyFloatStr f, "scale=" ++ pyIntStr w ++ ":" ++ pyIntStr h] := by
      simp [RFFmpegCommand.filters, hf, hres, ne_of_gt hpos]
    have hvf : c.vfArgs =
        ["-vf", "fps=" ++ pyFloatStr f ++ "," ++ ("scale=" ++ pyIntStr w ++ ":" ++ pyIntStr h)] := by
      rw [RFFmpegCommand.vfArgs, hfil]
      simp [intercalate_pair]
    rw [RFFmpegCommand.build_command, hvf]
  · intro q f w h hf hres
    rw [QFFmpegCommand.build_stream, hf, hres]
    simp

/-- Claim C6 witness: the theorem applied to the command of the repository's
own build_command test (fps 30, resolution 640×480, times 1..4). -/
theorem c6_filter_chain_witness :
    ({ input_path := "input.mp4", output_path := some "output.mp4", fps := some 30,
       start_time := some 1, end_time := some 4, resolution := some (640, 480) }
        : RFFmpegCommand).fps = some 30 ∧ (0:ℚ) < 30 ∧
    RFFmpegCommand.build_command
      { input_path := "input.mp4", output_path := some "output.mp4", fps := some 30,
        start_time := some 1, end_time := some 4, resolution := some (640, 480) } =
      ["ffmpeg", "-i", "input.mp4"] ++
        RFFmpegCommand.ssArgs
          { input_path := "input.mp4", output_path := some "output.mp4", fps := some 30,
            start_time := some 1, end_time := some 4, resolution := some (640, 480) } ++
        RFFmpegCommand.durationArgs
          { input_path := "input.mp4", output_path := some "output.mp4", fps := some 30,
            start_time := some 1, end_time := some 4, resolution := some (640, 480) } ++
        ["-vf", "fps=" ++ pyFloatStr 30 ++ "," ++ ("scale=" ++ pyIntStr 640 ++ ":" ++ pyIntStr 480)] ++
        RFFmpegCommand.outputArgs
          { input_path := "input.mp4", output_path := some "output.mp4", fps := some 30,
            start_time := some 1, end_time := some 4, resolution := some (640, 480) } ∧
    QFFmpegCommand.build_stream
      { input_path := "input.mp4", fps := some 30, resolution := some (640, 480) } =
      QFFmpegCommand.startFilters
        { input_path := "input.mp4", fps := some 30, resolution := some (640, 480) } ++
      [QFilter.fpsFilter 30, QFilter.scale 640 480] ++
      QFFmpegCommand.trimFilters
        { input_path := "input.mp4", fps := some 30, resolution := some (640, 480) } :=
  ⟨rfl, by norm_num,
   c6_filter_chain.1 _ 30 640 480 rfl (by norm_num) rfl,
   c6_filter_chain.2 _ 30 640 480 rfl rfl⟩

/-- Claim C8: every `ProcessingMetadata` that passes validation has
completed_frames ≤ total_frames whenever total_frames is known, and
construction with completed_frames exceeding a known total_frames fails
with a validation error. -/
theorem c8_progress_invariant :
    (∀ (total : Option Int) (completed : Int) (status : String) (m : ProcessingMetadata),
        ProcessingMetadata.construct total completed status = .ok m →
        ∀ t, m.total_frames = some t → m.completed_frames ≤ t) ∧
    (∀ (t completed : Int) (status : String), t < completed →
        (ProcessingMetadata.construct (some t) completed status).isOk = false) := by
  constructor
  · intro total completed status m hm t ht
    cases total with
    | none =>
        simp [ProcessingMetadata.construct, ProcessingMetadata.validate_progress] at hm
        rw [← hm] at ht
        simp at ht
    | some t0 =>
        by_cases hgt : completed > t0
        · simp [ProcessingMetadata.construct, ProcessingMetadata.validate_progress, hgt] at hm
        · simp [ProcessingMetadata.construct, ProcessingMetadata.validate_progress, hgt] at hm
          rw [← hm] at ht ⊢
          simp at ht
          subst ht
          simp only []
          omega
  · intro t completed status h
    simp only [ProcessingMetadata.construct, ProcessingMetadata.validate_progress,
      if_pos h]
    rfl

/-- Claim C8 witness: the theorem applied at total 5 / completed 3
(accepted, 3 ≤ 5) and at total 3 / completed 5 (rejected). -/
theorem c8_progress_invariant_witness :
    (3:Int) ≤ 5 ∧ (3:Int) < 5 ∧
    (ProcessingMetadata.construct (some 3) 5 "in_progress").isOk = false :=
  ⟨c8_progress_invariant.1 (some 5) 3 "in_progress"
      { total_frames := some 5, completed_frames := 3, status := "in_progress" } rfl 5 rfl,
   by norm_num,
   c8_progress_invariant.2 3 5 "in_progress" (by norm_num)⟩

/-- Claim C9: VideoWriter rejects empty input at the public interface
before any subprocess is spawned: `write_frames` raises ValueError
"No frames to write" on every empty sequence and `write_frames_from_stream`
raises ValueError on every iterator yielding no frames, in both cases with
the spawn flag still false. -/
theorem c9_empty_input_rejected (fps : ℚ) (p : String) (rc : Int) (st : String) :
    VideoWriter.write_frames fps p [] rc st =
      { spawned := false, framesWritten := 0,
        result := .error (.valueError "No frames to write") } ∧
    VideoWriter.write_frames_from_stream fps p [] rc st =
      { spawned := false, framesWritten := 0,
        result := .error (.valueError "No frames received from iterator") } :=
  ⟨rfl, rfl⟩

/-- The write loop pipes every frame when all dimensions match, counting
them on top of the frames already written. -/
theorem writeAll_inl (h w : Nat) (l : List Frame) (n : Nat)
    (hl : ∀ fr ∈ l, fr.height = h ∧ fr.width = w) :
    writeAll h w l n = .inl (n + l.length) := by
  induction l generalizing n with
  | nil => simp [writeAll]
  | cons f rest ih =>
      have hf := hl f (by simp)
      have hrest : ∀ fr ∈ rest, fr.height = h ∧ fr.width = w := by
        intro fr hfr
        exact hl fr (by simp [hfr])
      simp only [writeAll, hf.1, hf.2, and_self, if_true, ih (n + 1) hrest,
        List.length_cons]
      congr 1
      omega

/-- Claim C10: a successful write of N ≥ 1 frames, all matching the first
frame's height and width, returns a `WriteResult` with frame_count N,
duration N / fps and the constructor's output path, from both
`write_frames` and `write_frames_from_stream` (exit code 0 models the
successful engine run). -/
theorem c10_write_result (fps : ℚ) (p : String) (f0 : Frame) (rest : List Frame) (st : String)
    (hdims : ∀ fr ∈ rest, fr.height = f0.height ∧ fr.width = f0.width) :
    VideoWriter.write_frames fps p (f0 :: rest) 0 st =
      { spawned := true, framesWritten := (f0 :: rest).length,
        result := .ok { output_path := p, frame_count := (f0 :: rest).length,
                        duration := ((f0 :: rest).length : ℚ) / fps } } ∧
    VideoWriter.write_frames_from_stream fps p (f0 :: rest) 0 st =
      { spawned := true, framesWritten := (f0 :: rest).length,
        result := .ok { output_path := p, frame_count := (f0 :: rest).length,
                        duration := ((f0 :: rest).length : ℚ) / fps } } := by
  have hall : ∀ fr ∈ (f0 :: rest), fr.height = f0.height ∧ fr.width = f0.width := by
    intro fr hfr
    rcases List.mem_cons.mp hfr with h | h
    · subst h
      exact ⟨rfl, rfl⟩
    · exact hdims fr h
  constructor
  · simp only [VideoWriter.write_frames, writeAll_inl f0.height f0.width (f0 :: rest) 0 hall]
    simp
  · simp only [VideoWriter.write_frames_from_stream,
      writeAll_inl f0.height f0.width rest 1 hdims]
    simp [add_comm]

/-- Claim C10 witness: the theorem applied to two 240×320 frames at 30 fps:
both interfaces report 2 frames of duration 2/30 at the configured path. -/
theorem c10_write_result_witness :
    (∀ fr ∈ [(⟨240, 320⟩ : Frame)], fr.height = 240 ∧ fr.width = 320) ∧
    VideoWriter.write_frames 30 "out.mp4" [⟨240, 320⟩, ⟨240, 320⟩] 0 "" =
      { spawned := true, framesWritten := 2,
        result := .ok { output_path := "out.mp4", frame_count := 2,
                        duration := ((2:ℚ) / 30) } } :=
  ⟨by decide,
   (c10_write_result 30 "out.mp4" ⟨240, 320⟩ [⟨240, 320⟩] "" (by decide)).1⟩

/-- One unfolding step of the retry loop when attempts remain. -/
theorem retryLoop_step (att : Nat → Attempt) (delay : ℚ) (remaining made : Nat)
    (sleeps : List ℚ) (last : Option LastError) :
    retryLoop att delay (remaining + 1) made sleeps last =
      match att made with
      | .ok => ⟨made + 1, sleeps.reverse, "completed", .returned⟩
      | .engineError stderr =>
          retryLoop att delay remaining (made + 1)
            (if 0 < remaining then delay :: sleeps else sleeps) (some (.engine stderr))
      | .unexpected msg =>
          ⟨made + 1, sleeps.reverse, "failed", .raised (some (.unexpected msg))⟩ := rfl

/-- When every remaining attempt fails with an engine error, the loop makes
exactly the remaining attempts, sleeps between consecutive ones only, and
raises the last stderr. -/
theorem retryLoop_all_fail (att : Nat → Attempt) (delay : ℚ) (e : Nat → Option String) :
    ∀ (r made : Nat) (sleeps : List ℚ) (last : Option LastError),
      (∀ i, made ≤ i → i < made + (r + 1) → att i = .engineError (e i)) →
      retryLoop att delay (r + 1) made sleeps last =
        ⟨made + (r + 1), (List.replicate r delay ++ sleeps).reverse, "failed",
         .raised (some (.engine (e (made + r))))⟩ := by
  intro r
  induction r with
  | zero =>
      intro made sleeps last hfail
      have h0 := hfail made (le_refl _) (by omega)
      rw [retryLoop_step, h0]
      simp [retryLoop]
  | succ r ih =>
      intro made sleeps last hfail
      have h0 := hfail made (le_refl _) (by omega)
      have hrec := ih (made + 1) (delay :: sleeps) (some (.engine (e made)))
        (fun i hi hilt => hfail i (by omega) (by omega))
      rw [retryLoop_step, h0]
      simp only []
      rw [if_pos (by omega)]
      rw [hrec]
      have hrep : List.replicate r delay ++ delay :: sleeps =
          List.replicate (r + 1) delay ++ sleeps := by
        rw [List.replicate_succ']
        simp
      rw [hrep]
      have : made + 1 + (r + 1) = made + (r + 1 + 1) := by omega
      rw [this]
      have : made + 1 + r = made + (r + 1) := by omega
      rw [this]

/-- A first success at attempt index `made + k` (after `k` engine-error
attempts) returns at once with `k` sleeps. -/
theorem retryLoop_success (att : Nat → Attempt) (delay : ℚ) :
    ∀ (k remaining made : Nat) (sleeps : List ℚ) (last : Option LastError),
      k < remaining →
      att (made + k) = .ok →
      (∀ i, made ≤ i → i < made + k → ∃ s, att i = .engineError s) →
      retryLoop att delay remaining made sleeps last =
        ⟨made + k + 1, (List.replicate k delay ++ sleeps).reverse, "completed", .returned⟩ := by
  intro k
  induction k with
  | zero =>
      intro remaining made sleeps last hk hok _
      cases remaining with
      | zero => omega
      | succ r =>
          simp only [Nat.add_zero] at hok
          rw [retryLoop_step, hok]
          simp
  | succ k ih =>
      intro remaining made sleeps last hk hok hfail
      cases remaining with
      | zero => omega
      | succ r =>
          obtain ⟨s, hs⟩ := hfail made (le_refl _) (by omega)
          have hrec := ih r (made + 1) (delay :: sleeps) (some (.engine s))
            (by omega)
            (by
              have : made + 1 + k = made + (k + 1) := by omega
              rw [this]
              exact hok)
            (fun i hi hilt => hfail i (by omega) (by omega))
          rw [retryLoop_step, hs]
          simp only []
          rw [if_pos (by omega)]
          rw [hrec]
          have hrep : List.replicate k delay ++ delay :: sleeps =
              List.replicate (k + 1) delay ++ sleeps := by
            rw [List.replicate_succ']
            simp
          rw [hrep]
          have : made + 1 + k + 1 = made + (k + 1) + 1 := by omega
          rw [this]

/-- Claim C7: when every attempt fails with an engine error,
`execute_with_retry` makes exactly `retries` attempts, sleeps the fixed
`retry_delay` between consecutive attempts but not after the last, writes
metadata status "failed" and raises an error carrying the last attempt's
stderr; a success on attempt k (after k failures) returns immediately with
status "completed" after k + 1 attempts and k sleeps. -/
theorem c7_retry_policy (retries : Nat) (delay : ℚ) (att : Nat → Attempt)
    (e : Nat → Option String) (hr : 1 ≤ retries) :
    ((∀ i, i < retries → att i = .engineError (e i)) →
      execute_with_retry retries delay att =
        ⟨retries, List.replicate (retries - 1) delay, "failed",
         .raised (some (.engine (e (retries - 1))))⟩) ∧
    (∀ k, k < retries → att k = .ok →
      (∀ i, i < k → ∃ s, att i = .engineError s) →
      execute_with_retry retries delay att =
        ⟨k + 1, List.replicate k delay, "completed", .returned⟩) := by
  constructor
  · intro hfail
    obtain ⟨r, hrr⟩ : ∃ r, retries = r + 1 := ⟨retries - 1, by omega⟩
    subst hrr
    rw [execute_with_retry,
      retryLoop_all_fail att delay e r 0 [] none
        (fun i _ hilt => hfail i (by omega))]
    simp
  · intro k hk hok hfail
    rw [execute_with_retry,
      retryLoop_success att delay k retries 0 [] none hk
        (by simpa using hok)
        (fun i _ hilt => hfail i (by omega))]
    simp

/-- Claim C7 witness: the theorem applied with retries 3, delay 1: three
all-failing attempts give 3 attempts, 2 sleeps and the last stderr; an
attempt function succeeding at index 1 gives 2 attempts and 1 sleep. -/
theorem c7_retry_policy_witness :
    1 ≤ 3 ∧
    execute_with_retry 3 1 (fun _ => Attempt.engineError (some "boom")) =
      ⟨3, List.replicate 2 1, "failed", .raised (some (.engine (some "boom")))⟩ ∧
    execute_with_retry 3 1 (fun i => if i = 1 then Attempt.ok else Attempt.engineError (some "x")) =
      ⟨2, List.replicate 1 1, "completed", .returned⟩ :=
  ⟨by omega,
   (c7_retry_policy 3 1 (fun _ => Attempt.engineError (some "boom"))
      (fun _ => some "boom") (by omega)).1 (fun i _ => rfl),
   (c7_retry_policy 3 1 (fun i => if i = 1 then Attempt.ok else Attempt.engineError (some "x"))
      (fun _ => some "x") (by omega)).2 1 (by omega) rfl
      (fun i hi => ⟨some "x", by
        have : i = 0 := by omega
        subst this
        rfl⟩)⟩

/-- The shared finally-block teardown always leaves both pipes closed at
least once and the child no longer alive, whatever state it starts from. -/
theorem finallyTeardown_reclaimed (d : Bool) (s : ProcState) :
    reclaimed (finallyTeardown d s) := by
  unfold finallyTeardown escalate reclaimed terminateProc killProc closeStdout closeStderr
  by_cases h : s.alive <;> by_cases hd : d <;>
    simp [h, hd] <;> omega

/-- Claim C1: on every exit path of `extract_frames` — normal exhaustion,
engine failure, timeout, mid-stream exception, caller abandonment — the
teardown runs exactly once before returning or raising.  Refuted: on the
quackvideo mid-stream-exception path the inner `except` clause (ffmpeg.py
lines 181-183) closes both pipes and terminates, and the `finally` block
then closes both pipes a second time, so the pipe-close actions execute
twice in that one invocation. -/
theorem c1_counterexample :
    (quackExtractRun (.midStreamError true true)).1.stdoutCloses = 2 ∧
    (quackExtractRun (.midStreamError true true)).1.stderrCloses = 2 ∧
    ¬((quackExtractRun (.midStreamError true true)).1.stdoutCloses = 1) := by
  refine ⟨rfl, rfl, by decide⟩

/-- Claim C1 (amended): on every exit path of both `extract_frames`
variants after a successful spawn — normal exhaustion, engine failure, wait
timeout, read timeout, mid-stream exception, caller abandonment, with the
child dying on SIGTERM or needing the post-grace kill — the invocation
closes stdout and stderr at least once and leaves the child process not
running before it returns, raises, or finishes closing; the teardown is not
exactly-once in general (the quackvideo mid-stream path closes the pipes
twice, and the reelpy stderr-drain thread may add a stderr close). -/
theorem c1_teardown_all_paths :
    (∀ x : QExit, reclaimed (quackExtractRun x).1) ∧
    (∀ x : RExit, reclaimed (reelExtractRun x).1) := by
  constructor
  · intro x
    cases x <;> exact finallyTeardown_reclaimed _ _
  · intro x
    cases x <;> exact finallyTeardown_reclaimed _ _
